import Mathlib

/-!
# libc11threads: status translation and thread launch adapter

A shallow embedding of `src/pthread.c` and `src/threads.h`.

The C functions are thin wrappers around the POSIX threading library.  The
native library is not part of the repository, so every native primitive is
represented by an oracle (`Env`) that fixes the value the primitive returns,
and every action a wrapper performs on the outside world is appended to a
trace held in `World`.  Each wrapper calls each primitive at most once, so a
single result per primitive covers "every native result".
-/

namespace C11Threads

/-! ## Constants of `threads.h` -/

/-- Pointers are machine addresses; `0` is `NULL`. -/
abbrev Ptr := Nat

def NULL : Ptr := 0

/-- The enumerators `mtx_plain = 0`, `mtx_timed = (1 << 0)`,
`mtx_recursive = (1 << 1)` of `threads.h`. -/
def mtx_plain : Int := 0
def mtx_timed : Int := 1 <<< 0
def mtx_recursive : Int := 1 <<< 1

/-- The enumerators `thrd_success = 0, thrd_timedout, thrd_busy, thrd_error,
thrd_nomem` of `threads.h`. -/
def thrd_success : Int := 0
def thrd_timedout : Int := 1
def thrd_busy : Int := 2
def thrd_error : Int := 3
def thrd_nomem : Int := 4

/-- Values that come from the system headers (`errno.h`, `pthread.h`,
`stdint.h`) and from the ABI, none of which the repository fixes. -/
structure Platform where
  ENOMEM : Int
  ETIMEDOUT : Int
  PTHREAD_MUTEX_RECURSIVE : Int
  /-- Width of `int` in bits. -/
  int_bits : Nat
  /-- Width of `intptr_t` and of `void*` in bits. -/
  ptr_bits : Nat
  /-- The value of `sizeof(struct wrapper_data)`. -/
  sizeof_wrapper_data : Nat

/-- The values found on Linux x86-64 with glibc. -/
def linux_x86_64 : Platform :=
  { ENOMEM := 12, ETIMEDOUT := 110, PTHREAD_MUTEX_RECURSIVE := 1,
    int_bits := 32, ptr_bits := 64, sizeof_wrapper_data := 16 }

/-! ## The macros `twoway` and `threeway` -/

/-- The macro `twoway(s)`: `return (s) == 0 ? thrd_success : thrd_error`. -/
def twoway (s : Int) : Int :=
  if s = 0 then thrd_success else thrd_error

/-- The macro `threeway(s, e, r)`: a `switch (s)` with `case 0`, `case e`
and `default`.  The cases of a C switch are distinct, so `case 0` is tested
first without loss. -/
def threeway (s e r : Int) : Int :=
  if s = 0 then thrd_success
  else if s = e then r
  else thrd_error

/-! ## Integer and pointer conversions -/

/-- Conversion of an integer value to a signed type of `bits` bits: the value
is kept when it fits and wraps modulo `2 ^ bits` otherwise. -/
def to_signed (bits : Nat) (x : Int) : Int :=
  (x + 2 ^ (bits - 1)) % 2 ^ bits - 2 ^ (bits - 1)

/-- The cast `(void*) (intptr_t) res` of `wrapper` and `thrd_exit`: the `int`
is widened to `intptr_t` and its bit pattern becomes the pointer. -/
def int_to_ptr (P : Platform) (res : Int) : Ptr :=
  (to_signed P.ptr_bits res % 2 ^ P.ptr_bits).toNat

/-- The cast `(int) (intptr_t) tmp` of `thrd_join`: the pointer's bit pattern
is read as an `intptr_t`, which is then converted to `int`. -/
def ptr_to_int (P : Platform) (tmp : Ptr) : Int :=
  to_signed P.int_bits (to_signed P.ptr_bits (tmp : Int))

/-! ## The world outside the wrappers -/

/-- The `int`-returning native primitives the wrappers forward to. -/
inductive NativeCall
  | pthread_cond_broadcast
  | pthread_cond_init
  | pthread_cond_signal
  | pthread_cond_timedwait
  | pthread_cond_wait
  | pthread_mutexattr_init
  | pthread_mutexattr_settype
  | pthread_mutex_init
  | pthread_mutexattr_destroy
  | pthread_mutex_lock
  | pthread_mutex_timedlock
  | pthread_mutex_trylock
  | pthread_mutex_unlock
  | pthread_create
  | pthread_detach
  | pthread_join
  | pthread_key_create
  | pthread_setspecific
  deriving DecidableEq, Repr

/-- A function pointer handed to `pthread_create`: the static function
`wrapper` of `pthread.c`, or some other function. -/
inductive Code
  | wrapper
  | other (f : Nat)
  deriving DecidableEq, Repr

/-- A heap-allocated `struct wrapper_data`; a field is `none` until it is assigned. -/
structure Cell where
  func : Option Nat
  arg : Option Ptr
  deriving DecidableEq, Repr

/-- One action of a wrapper on the outside world. -/
inductive Event
  /-- A native primitive was called (arguments not tracked). -/
  | native (c : NativeCall)
  /-- The call `pthread_mutexattr_settype(&attr, kind)`. -/
  | mutexattr_settype (kind : Int)
  /-- The call `pthread_mutex_init(mtx, &attr)`. -/
  | mutex_init (mtx : Ptr)
  /-- The call `pthread_create(thr, NULL, start_routine, arg)`; `record` is
  what the block `arg` points to holds when the call is made. -/
  | create (thr : Ptr) (start_routine : Code) (arg : Ptr) (record : Option Cell)
  /-- The call `pthread_exit(value)`. -/
  | exit (value : Ptr)
  /-- The call `malloc(size)`. -/
  | malloc (size : Nat)
  /-- The call `free(p)`. -/
  | free (p : Ptr)
  /-- The assignment `data->func = f`. -/
  | store_func (p : Ptr) (f : Nat)
  /-- The assignment `data->arg = a`. -/
  | store_arg (p : Ptr) (a : Ptr)
  /-- The struct copy `*(struct wrapper_data *)d`. -/
  | load (p : Ptr)
  /-- The call `func(arg)` of a start function. -/
  | invoke (f : Nat) (arg : Ptr)
  deriving DecidableEq, Repr

/-- The `struct wrapper_data` of `pthread.c`, as a value. -/
structure wrapper_data where
  func : Nat
  arg : Ptr
  deriving DecidableEq, Repr

/-- Everything a wrapper can observe or change. -/
structure World where
  /-- The actions performed so far, oldest first. -/
  trace : List Event
  /-- The live heap blocks. -/
  heap : Ptr → Option Cell
  /-- The `thrd_t` objects; `none` is one never written. -/
  handle_mem : Ptr → Option Nat
  /-- The `mtx_t` objects; `none` is one never initialised. -/
  mutex_mem : Ptr → Option Nat
  /-- The `int` objects result slots point to. -/
  int_mem : Ptr → Option Int
  /-- The value the running thread terminated with, if it has. -/
  exit_value : Option Ptr

/-- How a piece of C code ends. -/
inductive Outcome (α : Type)
  /-- It returned `a`, leaving the world `w`. -/
  | ret (a : α) (w : World)
  /-- Control never came back; `w` is the world where it was lost. -/
  | noreturn (w : World)
  /-- It had undefined behaviour. -/
  | undefined

/-- Apply `g` to the returned value, if there is one. -/
def Outcome.map {α β : Type} (g : α → β) : Outcome α → Outcome β
  | Outcome.ret a w => Outcome.ret (g a) w
  | Outcome.noreturn w => Outcome.noreturn w
  | Outcome.undefined => Outcome.undefined

/-- A piece of C code: a function of the world. -/
def M (α : Type) : Type := World → Outcome α

def M.pure {α : Type} (a : α) : M α := fun w => Outcome.ret a w

def M.bind {α β : Type} (m : M α) (f : α → M β) : M β := fun w =>
  match m w with
  | Outcome.ret a w1 => f a w1
  | Outcome.noreturn w1 => Outcome.noreturn w1
  | Outcome.undefined => Outcome.undefined

instance : Monad M where
  pure := M.pure
  bind := M.bind

/-- What the native library and the caller's functions do: the collaborators
the wrappers trust. -/
structure Env where
  /-- The status each `int`-returning primitive returns. -/
  status : NativeCall → Int
  /-- The pointer `malloc` returns; `NULL` when it fails. -/
  malloc : Ptr
  /-- The handle `pthread_create` stores when it succeeds. -/
  new_handle : Nat
  /-- The exit value `pthread_join` stores when it succeeds. -/
  join_value : Ptr
  /-- The contents `pthread_mutex_init` leaves in the mutex. -/
  mutex_image : Nat
  /-- The body of start function `f` applied to its argument. -/
  start : Nat → Ptr → M Int

/-- Append an action to the trace. -/
def emit (e : Event) : M Unit := fun w =>
  Outcome.ret () { w with trace := w.trace ++ [e] }

/-- Call a native primitive whose only tracked effect is its status. -/
def native (E : Env) (c : NativeCall) : M Int := do
  emit (Event.native c)
  pure (E.status c)

/-- The call `malloc(size)`: a non-null result is a fresh block whose fields
are not yet assigned. -/
def malloc (E : Env) (size : Nat) : M Ptr := fun w =>
  Outcome.ret E.malloc
    { w with
      trace := w.trace ++ [Event.malloc size]
      heap := if E.malloc = NULL then w.heap
              else Function.update w.heap E.malloc (some { func := none, arg := none }) }

/-- The call `free(p)`: nothing happens for `NULL`, a live block is released,
anything else is undefined. -/
def free (p : Ptr) : M Unit := fun w =>
  if p = NULL then Outcome.ret () { w with trace := w.trace ++ [Event.free p] }
  else match w.heap p with
    | some _ =>
      Outcome.ret ()
        { w with trace := w.trace ++ [Event.free p], heap := Function.update w.heap p none }
    | none => Outcome.undefined

/-- The assignment `data->func = f`; undefined when `data` is not live. -/
def store_func (p : Ptr) (f : Nat) : M Unit := fun w =>
  match w.heap p with
  | some c =>
    Outcome.ret ()
      { w with
        trace := w.trace ++ [Event.store_func p f]
        heap := Function.update w.heap p (some { c with func := some f }) }
  | none => Outcome.undefined

/-- The assignment `data->arg = a`; undefined when `data` is not live. -/
def store_arg (p : Ptr) (a : Ptr) : M Unit := fun w =>
  match w.heap p with
  | some c =>
    Outcome.ret ()
      { w with
        trace := w.trace ++ [Event.store_arg p a]
        heap := Function.update w.heap p (some { c with arg := some a }) }
  | none => Outcome.undefined

/-- The struct copy `*(struct wrapper_data *)d`; undefined when `d` is not a
live block with both fields assigned. -/
def load (d : Ptr) : M wrapper_data := fun w =>
  match w.heap d with
  | some { func := some f, arg := some a } =>
    Outcome.ret { func := f, arg := a } { w with trace := w.trace ++ [Event.load d] }
  | _ => Outcome.undefined

/-- The call `func(arg)` of a start function. -/
def invoke (E : Env) (f : Nat) (arg : Ptr) : M Int := do
  emit (Event.invoke f arg)
  E.start f arg

/-- The call `pthread_mutexattr_settype(&attr, kind)`. -/
def pthread_mutexattr_settype (E : Env) (kind : Int) : M Int := do
  emit (Event.mutexattr_settype kind)
  pure (E.status NativeCall.pthread_mutexattr_settype)

/-- The call `pthread_mutex_init(mtx, &attr)`: on success the mutex object
is written. -/
def pthread_mutex_init (E : Env) (mtx : Ptr) : M Int := fun w =>
  Outcome.ret (E.status NativeCall.pthread_mutex_init)
    { w with
      trace := w.trace ++ [Event.mutex_init mtx]
      mutex_mem := if E.status NativeCall.pthread_mutex_init = 0
                   then Function.update w.mutex_mem mtx (some E.mutex_image)
                   else w.mutex_mem }

/-- The call `pthread_create(thr, NULL, start_routine, arg)`: on success the
handle is stored in `*thr`.  The new thread itself runs elsewhere. -/
def pthread_create (E : Env) (thr : Ptr) (start_routine : Code) (arg : Ptr) : M Int := fun w =>
  Outcome.ret (E.status NativeCall.pthread_create)
    { w with
      trace := w.trace ++ [Event.create thr start_routine arg (w.heap arg)]
      handle_mem := if E.status NativeCall.pthread_create = 0
                    then Function.update w.handle_mem thr (some E.new_handle)
                    else w.handle_mem }

/-- The call `pthread_exit(value)`: the thread ends with `value` and the call
does not return. -/
def pthread_exit {α : Type} (value : Ptr) : M α := fun w =>
  Outcome.noreturn { w with trace := w.trace ++ [Event.exit value], exit_value := some value }

/-- The call `pthread_join(thr, &tmp)`: returns the status together with the
contents of `tmp`, which holds the thread's exit value on success. -/
def pthread_join (E : Env) (_thr : Nat) : M (Int × Ptr) := do
  emit (Event.native NativeCall.pthread_join)
  pure (E.status NativeCall.pthread_join, E.join_value)

/-- The assignment `*res = v`. -/
def store_int (res : Ptr) (v : Int) : M Unit := fun w =>
  Outcome.ret () { w with int_mem := Function.update w.int_mem res (some v) }

/-! ## The functions of `pthread.c` -/

/-- Section 7.25.3.1, `cnd_broadcast`: `twoway(pthread_cond_broadcast(cond));` -/
def cnd_broadcast (E : Env) (_cond : Ptr) : M Int := do
  let s ← native E NativeCall.pthread_cond_broadcast
  pure (twoway s)

/-- Section 7.25.3.3, `cnd_init`:
`threeway(pthread_cond_init(cond, NULL), ENOMEM, thrd_nomem);` -/
def cnd_init (P : Platform) (E : Env) (_cond : Ptr) : M Int := do
  let s ← native E NativeCall.pthread_cond_init
  pure (threeway s P.ENOMEM thrd_nomem)

/-- Section 7.25.3.4, `cnd_signal`: `twoway(pthread_cond_signal(cond));` -/
def cnd_signal (E : Env) (_cond : Ptr) : M Int := do
  let s ← native E NativeCall.pthread_cond_signal
  pure (twoway s)

/-- Section 7.25.3.5, `cnd_timedwait`:
`threeway(pthread_cond_timedwait(cond, mtx, ts), ETIMEDOUT, thrd_busy);` -/
def cnd_timedwait (P : Platform) (E : Env) (_cond _mtx _ts : Ptr) : M Int := do
  let s ← native E NativeCall.pthread_cond_timedwait
  pure (threeway s P.ETIMEDOUT thrd_busy)

/-- Section 7.25.3.6, `cnd_wait`: `twoway(pthread_cond_wait(cond, mtx));` -/
def cnd_wait (E : Env) (_cond _mtx : Ptr) : M Int := do
  let s ← native E NativeCall.pthread_cond_wait
  pure (twoway s)

/-- Section 7.25.4.2, `mtx_init`.  The `switch (type)` whose four `case`
labels `break` and whose `default` returns `thrd_error` is the outer `if`; then
`pthread_mutexattr_init(&attr) != 0` returns `thrd_error`; then
`if (type & mtx_recursive) pthread_mutexattr_settype(&attr, PTHREAD_MUTEX_RECURSIVE);`,
`status = pthread_mutex_init(mtx, &attr); pthread_mutexattr_destroy(&attr);
twoway(status);`. -/
def mtx_init (P : Platform) (E : Env) (mtx : Ptr) (type : Int) : M Int :=
  if type = mtx_plain ∨ type = mtx_timed
      ∨ type = Int.lor mtx_plain mtx_recursive ∨ type = Int.lor mtx_timed mtx_recursive then do
    let a ← native E NativeCall.pthread_mutexattr_init
    if a ≠ 0 then pure thrd_error
    else do
      if Int.land type mtx_recursive ≠ 0 then
        let _ ← pthread_mutexattr_settype E P.PTHREAD_MUTEX_RECURSIVE
      let status ← pthread_mutex_init E mtx
      let _ ← native E NativeCall.pthread_mutexattr_destroy
      pure (twoway status)
  else pure thrd_error

/-- Section 7.25.4.3, `mtx_lock`: `twoway(pthread_mutex_lock(mtx));` -/
def mtx_lock (E : Env) (_mtx : Ptr) : M Int := do
  let s ← native E NativeCall.pthread_mutex_lock
  pure (twoway s)

/-- Section 7.25.4.4, `mtx_timedlock`:
`threeway(pthread_mutex_timedlock(mtx, ts), ETIMEDOUT, thrd_busy);` -/
def mtx_timedlock (P : Platform) (E : Env) (_mtx _ts : Ptr) : M Int := do
  let s ← native E NativeCall.pthread_mutex_timedlock
  pure (threeway s P.ETIMEDOUT thrd_busy)

/-- Section 7.25.4.5, `mtx_trylock`: `twoway(pthread_mutex_trylock(mtx));` -/
def mtx_trylock (E : Env) (_mtx : Ptr) : M Int := do
  let s ← native E NativeCall.pthread_mutex_trylock
  pure (twoway s)

/-- Section 7.25.4.6, `mtx_unlock`: `twoway(pthread_mutex_unlock(mtx));` -/
def mtx_unlock (E : Env) (_mtx : Ptr) : M Int := do
  let s ← native E NativeCall.pthread_mutex_unlock
  pure (twoway s)

/-- Section 7.25.5.1, the static function `wrapper`:
`struct wrapper_data data = *(struct wrapper_data *)d; free(d);
return (void*) (intptr_t) data.func(data.arg);` -/
def wrapper (P : Platform) (E : Env) (d : Ptr) : M Ptr := do
  let data ← load d
  free d
  let r ← invoke E data.func data.arg
  pure (int_to_ptr P r)

/-- Section 7.25.5.1, `thrd_create`: `data = malloc(sizeof(struct wrapper_data));
if (!data) return thrd_nomem; data->func = func; data->arg = arg;
if (pthread_create(thr, NULL, wrapper, data) != 0) { free(data); return thrd_error; }
return thrd_success;` -/
def thrd_create (P : Platform) (E : Env) (thr : Ptr) (func : Nat) (arg : Ptr) : M Int := do
  let data ← malloc E P.sizeof_wrapper_data
  if data = NULL then pure thrd_nomem
  else do
    store_func data func
    store_arg data arg
    let c ← pthread_create E thr Code.wrapper data
    if c ≠ 0 then do
      free data
      pure thrd_error
    else pure thrd_success

/-- Section 7.25.5.3, `thrd_detach`: `twoway(pthread_detach(thr));` -/
def thrd_detach (E : Env) (_thr : Nat) : M Int := do
  let s ← native E NativeCall.pthread_detach
  pure (twoway s)

/-- Section 7.25.5.5, `thrd_exit`: `pthread_exit((void*) (intptr_t) res);` -/
def thrd_exit {α : Type} (P : Platform) (res : Int) : M α :=
  pthread_exit (int_to_ptr P res)

/-- Section 7.25.5.6, `thrd_join`: `if (pthread_join(thr, &tmp) == 0) {
if (res) *res = (int) (intptr_t) tmp; return thrd_success; } return thrd_error;` -/
def thrd_join (P : Platform) (E : Env) (thr : Nat) (res : Ptr) : M Int := do
  let (j, tmp) ← pthread_join E thr
  if j = 0 then do
    if res ≠ NULL then
      store_int res (ptr_to_int P tmp)
    pure thrd_success
  else pure thrd_error

/-- Section 7.25.6.1, `tss_create`: `twoway(pthread_key_create(key, dtor));` -/
def tss_create (E : Env) (_key : Ptr) (_dtor : Nat) : M Int := do
  let s ← native E NativeCall.pthread_key_create
  pure (twoway s)

/-- Section 7.25.6.4, `tss_set`: `twoway(pthread_setspecific(key, val));` -/
def tss_set (E : Env) (_key : Nat) (_val : Ptr) : M Int := do
  let s ← native E NativeCall.pthread_setspecific
  pure (twoway s)

/-! ## Sample collaborators, used to instantiate the theorems -/

/-- A world in which nothing has happened yet. -/
def empty_world : World :=
  { trace := [], heap := fun _ => none, handle_mem := fun _ => none,
    mutex_mem := fun _ => none, int_mem := fun _ => none, exit_value := none }

/-- An environment in which every primitive returns `s`, `malloc` returns
`p`, and start function `f` called with `a` returns `-(f + a)`. -/
def sample_env (s : Int) (p : Ptr) : Env :=
  { status := fun _ => s, malloc := p, new_handle := 7, join_value := 0,
    mutex_image := 1, start := fun f a => pure (-((f : Int) + (a : Int))) }

/-- A world whose only live heap block is a Thread Launch Record at `d`
holding `f` and `a`. -/
def world_with_record (d : Ptr) (f : Nat) (a : Ptr) : World :=
  { empty_world with
    heap := fun p => if p = d then some { func := some f, arg := some a } else none }

/-- An environment whose `pthread_join` succeeds and delivers `v`. -/
def join_env (v : Ptr) : Env :=
  { sample_env 0 0 with join_value := v }

/-- The operation `op` forwards to the primitive `c` alone and translates
its status two-way. -/
def ForwardsTwoWay (c : NativeCall) (op : Env → M Int) : Prop :=
  ∀ (E : Env) (w : World), ∃ v : Int,
    op E w = Outcome.ret v { w with trace := w.trace ++ [Event.native c] }
      ∧ (v = thrd_success ↔ E.status c = 0)
      ∧ (E.status c ≠ 0 → v = thrd_error)

/-! ## Basic facts -/

theorem bind_apply {α β : Type} (m : M α) (f : α → M β) (w : World) :
    (m >>= f) w =
      match m w with
      | Outcome.ret a w1 => f a w1
      | Outcome.noreturn w1 => Outcome.noreturn w1
      | Outcome.undefined => Outcome.undefined := rfl

theorem pure_apply {α : Type} (a : α) (w : World) :
    (pure a : M α) w = Outcome.ret a w := rfl

theorem native_apply (E : Env) (c : NativeCall) (w : World) :
    native E c w = Outcome.ret (E.status c) { w with trace := w.trace ++ [Event.native c] } := rfl

theorem twoway_eq_success (s : Int) : twoway s = thrd_success ↔ s = 0 := by
  unfold twoway thrd_success thrd_error
  split <;> simp_all

theorem twoway_of_ne_zero (s : Int) (h : s ≠ 0) : twoway s = thrd_error := by
  simp [twoway, h]

theorem forwardsTwoWay_of_eq (c : NativeCall) (op : Env → M Int)
    (h : ∀ E, op E = (native E c >>= fun s => pure (twoway s))) : ForwardsTwoWay c op := by
  intro E w
  refine ⟨twoway (E.status c), ?_, twoway_eq_success _, twoway_of_ne_zero _⟩
  rw [h]
  rfl

/-! ## Two-way translation -/

/-- C7: each of `cnd_broadcast`, `cnd_signal`, `cnd_wait`, `mtx_lock`,
`mtx_trylock`, `mtx_unlock`, `thrd_detach`, `tss_create` and `tss_set` calls
its one native primitive and nothing else, returns `thrd_success` exactly when
the primitive returned `0`, and returns `thrd_error` for every non-zero
status. -/
theorem twoway_operations (cond mtx key_slot val : Ptr) (thr dtor key : Nat) :
    ForwardsTwoWay NativeCall.pthread_cond_broadcast (fun E => cnd_broadcast E cond)
    ∧ ForwardsTwoWay NativeCall.pthread_cond_signal (fun E => cnd_signal E cond)
    ∧ ForwardsTwoWay NativeCall.pthread_cond_wait (fun E => cnd_wait E cond mtx)
    ∧ ForwardsTwoWay NativeCall.pthread_mutex_lock (fun E => mtx_lock E mtx)
    ∧ ForwardsTwoWay NativeCall.pthread_mutex_trylock (fun E => mtx_trylock E mtx)
    ∧ ForwardsTwoWay NativeCall.pthread_mutex_unlock (fun E => mtx_unlock E mtx)
    ∧ ForwardsTwoWay NativeCall.pthread_detach (fun E => thrd_detach E thr)
    ∧ ForwardsTwoWay NativeCall.pthread_key_create (fun E => tss_create E key_slot dtor)
    ∧ ForwardsTwoWay NativeCall.pthread_setspecific (fun E => tss_set E key val) := by
  refine ⟨?_, ?_, ?_, ?_, ?_, ?_, ?_, ?_, ?_⟩ <;>
    exact forwardsTwoWay_of_eq _ _ (fun _ => rfl)

/-! ## Three-way translation -/

theorem threeway_zero (e r : Int) : threeway 0 e r = thrd_success := by
  simp [threeway]

theorem threeway_special (e r : Int) (he : e ≠ 0) : threeway e e r = r := by
  simp [threeway, he]

theorem threeway_other (s e r : Int) (h0 : s ≠ 0) (he : s ≠ e) :
    threeway s e r = thrd_error := by
  simp [threeway, h0, he]

/-- C8: `cnd_init` calls `pthread_cond_init` alone and returns
`thrd_success` when that returned `0`, `thrd_nomem` when it returned `ENOMEM`,
and `thrd_error` for every other non-zero status. -/
theorem cnd_init_threeway (P : Platform) (E : Env) (cond : Ptr) (w : World)
    (hE : P.ENOMEM ≠ 0) :
    ∃ v : Int,
      cnd_init P E cond w
          = Outcome.ret v
              { w with trace := w.trace ++ [Event.native NativeCall.pthread_cond_init] }
        ∧ (E.status NativeCall.pthread_cond_init = 0 → v = thrd_success)
        ∧ (E.status NativeCall.pthread_cond_init = P.ENOMEM → v = thrd_nomem)
        ∧ (E.status NativeCall.pthread_cond_init ≠ 0
            → E.status NativeCall.pthread_cond_init ≠ P.ENOMEM → v = thrd_error) := by
  refine ⟨threeway (E.status NativeCall.pthread_cond_init) P.ENOMEM thrd_nomem, rfl, ?_, ?_, ?_⟩
  · intro h
    rw [h]
    exact threeway_zero _ _
  · intro h
    rw [h]
    exact threeway_special _ _ hE
  · intro h0 he
    exact threeway_other _ _ _ h0 he

/-- An instance of `cnd_init_threeway` on concrete inputs. -/
theorem cnd_init_threeway_witness :
    linux_x86_64.ENOMEM ≠ 0 ∧
    ∃ v : Int,
      cnd_init linux_x86_64 (sample_env 12 0) 1 empty_world
          = Outcome.ret v
              { empty_world with
                trace := empty_world.trace ++ [Event.native NativeCall.pthread_cond_init] }
        ∧ ((sample_env 12 0).status NativeCall.pthread_cond_init = 0 → v = thrd_success)
        ∧ ((sample_env 12 0).status NativeCall.pthread_cond_init = linux_x86_64.ENOMEM
            → v = thrd_nomem)
        ∧ ((sample_env 12 0).status NativeCall.pthread_cond_init ≠ 0
            → (sample_env 12 0).status NativeCall.pthread_cond_init ≠ linux_x86_64.ENOMEM
            → v = thrd_error) :=
  ⟨by decide, cnd_init_threeway linux_x86_64 (sample_env 12 0) 1 empty_world (by decide)⟩

/-- C1: when `pthread_mutex_timedlock` returns `ETIMEDOUT`, `mtx_timedlock`
returns `thrd_busy`, which is not `thrd_timedout`. -/
theorem mtx_timedlock_timeout_is_busy (P : Platform) (E : Env) (mtx ts : Ptr) (w : World)
    (hE : P.ETIMEDOUT ≠ 0)
    (hr : E.status NativeCall.pthread_mutex_timedlock = P.ETIMEDOUT) :
    mtx_timedlock P E mtx ts w
        = Outcome.ret thrd_busy
            { w with trace := w.trace ++ [Event.native NativeCall.pthread_mutex_timedlock] }
      ∧ thrd_busy ≠ thrd_timedout := by
  refine ⟨?_, by decide⟩
  show Outcome.ret (threeway (E.status NativeCall.pthread_mutex_timedlock) P.ETIMEDOUT thrd_busy) _
      = _
  rw [hr, threeway_special _ _ hE]

/-- An instance of `mtx_timedlock_timeout_is_busy` on concrete inputs. -/
theorem mtx_timedlock_timeout_is_busy_witness :
    linux_x86_64.ETIMEDOUT ≠ 0
    ∧ (sample_env 110 0).status NativeCall.pthread_mutex_timedlock = linux_x86_64.ETIMEDOUT
    ∧ mtx_timedlock linux_x86_64 (sample_env 110 0) 1 2 empty_world
        = Outcome.ret thrd_busy
            { empty_world with
              trace := empty_world.trace ++ [Event.native NativeCall.pthread_mutex_timedlock] }
    ∧ thrd_busy ≠ thrd_timedout :=
  ⟨by decide, rfl,
    mtx_timedlock_timeout_is_busy linux_x86_64 (sample_env 110 0) 1 2 empty_world
      (by decide) rfl⟩

/-- C2: when `pthread_cond_timedwait` returns `ETIMEDOUT`, `cnd_timedwait`
returns `thrd_busy`, which is not `thrd_timedout`. -/
theorem cnd_timedwait_timeout_is_busy (P : Platform) (E : Env) (cond mtx ts : Ptr) (w : World)
    (hE : P.ETIMEDOUT ≠ 0)
    (hr : E.status NativeCall.pthread_cond_timedwait = P.ETIMEDOUT) :
    cnd_timedwait P E cond mtx ts w
        = Outcome.ret thrd_busy
            { w with trace := w.trace ++ [Event.native NativeCall.pthread_cond_timedwait] }
      ∧ thrd_busy ≠ thrd_timedout := by
  refine ⟨?_, by decide⟩
  show Outcome.ret (threeway (E.status NativeCall.pthread_cond_timedwait) P.ETIMEDOUT thrd_busy) _
      = _
  rw [hr, threeway_special _ _ hE]

/-- An instance of `cnd_timedwait_timeout_is_busy` on concrete inputs. -/
theorem cnd_timedwait_timeout_is_busy_witness :
    linux_x86_64.ETIMEDOUT ≠ 0
    ∧ (sample_env 110 0).status NativeCall.pthread_cond_timedwait = linux_x86_64.ETIMEDOUT
    ∧ cnd_timedwait linux_x86_64 (sample_env 110 0) 1 2 3 empty_world
        = Outcome.ret thrd_busy
            { empty_world with
              trace := empty_world.trace ++ [Event.native NativeCall.pthread_cond_timedwait] }
    ∧ thrd_busy ≠ thrd_timedout :=
  ⟨by decide, rfl,
    cnd_timedwait_timeout_is_busy linux_x86_64 (sample_env 110 0) 1 2 3 empty_world
      (by decide) rfl⟩

/-! ## Mutex initialisation -/

theorem mtx_kinds :
    mtx_plain = 0 ∧ mtx_timed = 1 ∧ Int.lor mtx_plain mtx_recursive = 2
      ∧ Int.lor mtx_timed mtx_recursive = 3 := by decide

theorem mtx_bits :
    Int.land 0 mtx_recursive = 0 ∧ Int.land 1 mtx_recursive = 0
      ∧ Int.land 2 mtx_recursive = 2 ∧ Int.land 3 mtx_recursive = 2
      ∧ Int.lor 0 mtx_recursive = 2 ∧ Int.lor 1 mtx_recursive = 3 := by decide

theorem mtx_init_rejected (P : Platform) (E : Env) (mtx : Ptr) (type : Int) (w : World)
    (h : ¬ (type = 0 ∨ type = 1 ∨ type = 2 ∨ type = 3)) :
    mtx_init P E mtx type w = Outcome.ret thrd_error w := by
  obtain ⟨h0, h1, h2, h3⟩ := mtx_kinds
  unfold mtx_init
  rw [h2, h3, h0, h1, if_neg h]
  rfl

theorem mtx_init_attr_failed (P : Platform) (E : Env) (mtx : Ptr) (type : Int) (w : World)
    (h : type = 0 ∨ type = 1 ∨ type = 2 ∨ type = 3)
    (ha : E.status NativeCall.pthread_mutexattr_init ≠ 0) :
    mtx_init P E mtx type w =
      Outcome.ret thrd_error
        { w with trace := w.trace ++ [Event.native NativeCall.pthread_mutexattr_init] } := by
  rcases h with h | h | h | h <;> subst h <;>
    simp [mtx_init, bind_apply, native_apply, pure_apply, ha, mtx_kinds, mtx_bits]

theorem mtx_init_run (P : Platform) (E : Env) (mtx : Ptr) (type : Int) (w : World)
    (h : type = 0 ∨ type = 1 ∨ type = 2 ∨ type = 3)
    (ha : E.status NativeCall.pthread_mutexattr_init = 0) :
    mtx_init P E mtx type w =
      Outcome.ret (twoway (E.status NativeCall.pthread_mutex_init))
        { w with
          trace := w.trace ++ [Event.native NativeCall.pthread_mutexattr_init]
            ++ (if type = 2 ∨ type = 3
                then [Event.mutexattr_settype P.PTHREAD_MUTEX_RECURSIVE] else [])
            ++ [Event.mutex_init mtx, Event.native NativeCall.pthread_mutexattr_destroy]
          mutex_mem := if E.status NativeCall.pthread_mutex_init = 0
                       then Function.update w.mutex_mem mtx (some E.mutex_image)
                       else w.mutex_mem } := by
  rcases h with h | h | h | h <;> subst h <;>
    simp [mtx_init, bind_apply, native_apply, pure_apply, ha, mtx_kinds, mtx_bits,
      pthread_mutex_init, pthread_mutexattr_settype, emit]

/-- C3: for every `type` outside `{0, 1, 2, 3}` `mtx_init` returns
`thrd_error` and leaves the world exactly as it found it (nothing is added to
the trace of native calls and the mutex object is unchanged); for every `type`
inside the set it goes on to call `pthread_mutexattr_init`. -/
theorem mtx_init_kind_check (P : Platform) (E : Env) (mtx : Ptr) (type : Int) (w : World) :
    (¬ (type = 0 ∨ type = 1 ∨ type = 2 ∨ type = 3)
        → mtx_init P E mtx type w = Outcome.ret thrd_error w)
    ∧ ((type = 0 ∨ type = 1 ∨ type = 2 ∨ type = 3)
        → ∃ (v : Int) (w1 : World) (rest : List Event),
            mtx_init P E mtx type w = Outcome.ret v w1
              ∧ w1.trace
                  = w.trace ++ Event.native NativeCall.pthread_mutexattr_init :: rest) := by
  refine ⟨mtx_init_rejected P E mtx type w, fun h => ?_⟩
  by_cases ha : E.status NativeCall.pthread_mutexattr_init = 0
  · exact ⟨_, _,
      (if type = 2 ∨ type = 3 then [Event.mutexattr_settype P.PTHREAD_MUTEX_RECURSIVE] else [])
        ++ [Event.mutex_init mtx, Event.native NativeCall.pthread_mutexattr_destroy],
      mtx_init_run P E mtx type w h ha, by simp⟩
  · exact ⟨_, _, [], mtx_init_attr_failed P E mtx type w h ha, rfl⟩

/-- An instance of `mtx_init_kind_check` on concrete inputs. -/
theorem mtx_init_kind_check_witness :
    (¬ ((4 : Int) = 0 ∨ (4 : Int) = 1 ∨ (4 : Int) = 2 ∨ (4 : Int) = 3))
    ∧ mtx_init linux_x86_64 (sample_env 0 0) 1 4 empty_world
        = Outcome.ret thrd_error empty_world
    ∧ ((3 : Int) = 0 ∨ (3 : Int) = 1 ∨ (3 : Int) = 2 ∨ (3 : Int) = 3)
    ∧ ∃ (v : Int) (w1 : World) (rest : List Event),
        mtx_init linux_x86_64 (sample_env 0 0) 1 3 empty_world = Outcome.ret v w1
          ∧ w1.trace
              = empty_world.trace
                  ++ Event.native NativeCall.pthread_mutexattr_init :: rest :=
  ⟨by decide,
    (mtx_init_kind_check linux_x86_64 (sample_env 0 0) 1 4 empty_world).1 (by decide),
    by decide,
    (mtx_init_kind_check linux_x86_64 (sample_env 0 0) 1 3 empty_world).2 (by decide)⟩

/-- C9: for a supported kind whose attribute object was set up
(`pthread_mutexattr_init` returned `0`), `mtx_init` performs, in this order,
`pthread_mutexattr_settype(PTHREAD_MUTEX_RECURSIVE)` exactly when the kind is
`2` or `3`, then `pthread_mutex_init`, then `pthread_mutexattr_destroy` once,
whatever `pthread_mutex_init` returned; and it returns the two-way translation
of the `pthread_mutex_init` status. -/
theorem mtx_init_supported (P : Platform) (E : Env) (mtx : Ptr) (type : Int) (w : World)
    (h : type = 0 ∨ type = 1 ∨ type = 2 ∨ type = 3)
    (ha : E.status NativeCall.pthread_mutexattr_init = 0) :
    ∃ v : Int,
      mtx_init P E mtx type w =
        Outcome.ret v
          { w with
            trace := w.trace ++ [Event.native NativeCall.pthread_mutexattr_init]
              ++ (if type = 2 ∨ type = 3
                  then [Event.mutexattr_settype P.PTHREAD_MUTEX_RECURSIVE] else [])
              ++ [Event.mutex_init mtx, Event.native NativeCall.pthread_mutexattr_destroy]
            mutex_mem := if E.status NativeCall.pthread_mutex_init = 0
                         then Function.update w.mutex_mem mtx (some E.mutex_image)
                         else w.mutex_mem }
      ∧ (v = thrd_success ↔ E.status NativeCall.pthread_mutex_init = 0)
      ∧ (E.status NativeCall.pthread_mutex_init ≠ 0 → v = thrd_error) :=
  ⟨twoway (E.status NativeCall.pthread_mutex_init), mtx_init_run P E mtx type w h ha,
    twoway_eq_success _, twoway_of_ne_zero _⟩

/-- An instance of `mtx_init_supported` on concrete inputs. -/
theorem mtx_init_supported_witness :
    ((2 : Int) = 0 ∨ (2 : Int) = 1 ∨ (2 : Int) = 2 ∨ (2 : Int) = 3)
    ∧ (sample_env 0 0).status NativeCall.pthread_mutexattr_init = 0
    ∧ ∃ v : Int,
      mtx_init linux_x86_64 (sample_env 0 0) 1 2 empty_world =
        Outcome.ret v
          { empty_world with
            trace := empty_world.trace ++ [Event.native NativeCall.pthread_mutexattr_init]
              ++ (if (2 : Int) = 2 ∨ (2 : Int) = 3
                  then [Event.mutexattr_settype linux_x86_64.PTHREAD_MUTEX_RECURSIVE] else [])
              ++ [Event.mutex_init 1, Event.native NativeCall.pthread_mutexattr_destroy]
            mutex_mem := if (sample_env 0 0).status NativeCall.pthread_mutex_init = 0
                         then Function.update empty_world.mutex_mem 1
                                (some (sample_env 0 0).mutex_image)
                         else empty_world.mutex_mem }
      ∧ (v = thrd_success ↔ (sample_env 0 0).status NativeCall.pthread_mutex_init = 0)
      ∧ ((sample_env 0 0).status NativeCall.pthread_mutex_init ≠ 0 → v = thrd_error) :=
  ⟨by decide, rfl,
    mtx_init_supported linux_x86_64 (sample_env 0 0) 1 2 empty_world (by decide) rfl⟩

/-! ## Thread creation -/

theorem thrd_create_alloc_failed (P : Platform) (E : Env) (thr : Ptr) (func : Nat) (arg : Ptr)
    (w : World) (hm : E.malloc = NULL) :
    thrd_create P E thr func arg w =
      Outcome.ret thrd_nomem
        { w with trace := w.trace ++ [Event.malloc P.sizeof_wrapper_data] } := by
  simp [thrd_create, bind_apply, pure_apply, malloc, hm]

theorem thrd_create_spawn_failed (P : Platform) (E : Env) (thr : Ptr) (func : Nat) (arg : Ptr)
    (w : World) (hm : E.malloc ≠ NULL) (hc : E.status NativeCall.pthread_create ≠ 0) :
    thrd_create P E thr func arg w =
      Outcome.ret thrd_error
        { w with
          trace := w.trace ++
            [Event.malloc P.sizeof_wrapper_data,
             Event.store_func E.malloc func,
             Event.store_arg E.malloc arg,
             Event.create thr Code.wrapper E.malloc (some { func := some func, arg := some arg }),
             Event.free E.malloc]
          heap := Function.update w.heap E.malloc none } := by
  simp [thrd_create, bind_apply, pure_apply, malloc, hm, hc, store_func, store_arg,
    pthread_create, free]

theorem thrd_create_spawned (P : Platform) (E : Env) (thr : Ptr) (func : Nat) (arg : Ptr)
    (w : World) (hm : E.malloc ≠ NULL) (hc : E.status NativeCall.pthread_create = 0) :
    thrd_create P E thr func arg w =
      Outcome.ret thrd_success
        { w with
          trace := w.trace ++
            [Event.malloc P.sizeof_wrapper_data,
             Event.store_func E.malloc func,
             Event.store_arg E.malloc arg,
             Event.create thr Code.wrapper E.malloc (some { func := some func, arg := some arg })]
          heap := Function.update w.heap E.malloc (some { func := some func, arg := some arg })
          handle_mem := Function.update w.handle_mem thr (some E.new_handle) } := by
  simp [thrd_create, bind_apply, pure_apply, malloc, hm, hc, store_func, store_arg,
    pthread_create, free]

theorem status_distinct :
    thrd_error ≠ thrd_nomem ∧ thrd_success ≠ thrd_nomem := by decide

/-- C4: when `malloc` returns `NULL`, `thrd_create` returns `thrd_nomem`
having done nothing but the `malloc` call (no `pthread_create`, no `free`, the
handle not written); and `thrd_create` always returns, with `thrd_nomem` only
when `malloc` returned `NULL`. -/
theorem thrd_create_nomem (P : Platform) (E : Env) (thr : Ptr) (func : Nat) (arg : Ptr)
    (w : World) :
    (E.malloc = NULL →
        thrd_create P E thr func arg w =
          Outcome.ret thrd_nomem
            { w with trace := w.trace ++ [Event.malloc P.sizeof_wrapper_data] })
    ∧ ∃ (v : Int) (w1 : World),
        thrd_create P E thr func arg w = Outcome.ret v w1
          ∧ (v = thrd_nomem → E.malloc = NULL) := by
  refine ⟨thrd_create_alloc_failed P E thr func arg w, ?_⟩
  by_cases hm : E.malloc = NULL
  · exact ⟨_, _, thrd_create_alloc_failed P E thr func arg w hm, fun _ => hm⟩
  · by_cases hc : E.status NativeCall.pthread_create = 0
    · exact ⟨_, _, thrd_create_spawned P E thr func arg w hm hc,
        fun h => absurd h status_distinct.2⟩
    · exact ⟨_, _, thrd_create_spawn_failed P E thr func arg w hm hc,
        fun h => absurd h status_distinct.1⟩

/-- An instance of `thrd_create_nomem` on concrete inputs. -/
theorem thrd_create_nomem_witness :
    (sample_env 0 0).malloc = NULL
    ∧ thrd_create linux_x86_64 (sample_env 0 0) 1 5 6 empty_world =
        Outcome.ret thrd_nomem
          { empty_world with
            trace := empty_world.trace ++ [Event.malloc linux_x86_64.sizeof_wrapper_data] } :=
  ⟨rfl, (thrd_create_nomem linux_x86_64 (sample_env 0 0) 1 5 6 empty_world).1 rfl⟩

/-- C5: when `malloc` succeeds, `thrd_create` stores `func` and `arg` in the
record and calls `pthread_create` with the entry point `wrapper` and the
record, which then holds exactly `func` and `arg`.  If `pthread_create`
returns non-zero, the one further action is a single `free` of the record and
the result is `thrd_error`; if it returns `0`, the result is `thrd_success`
and nothing at all follows the `pthread_create` call, the record staying
live. -/
theorem thrd_create_handoff (P : Platform) (E : Env) (thr : Ptr) (func : Nat) (arg : Ptr)
    (w : World) (hm : E.malloc ≠ NULL) :
    (E.status NativeCall.pthread_create ≠ 0 →
        thrd_create P E thr func arg w =
          Outcome.ret thrd_error
            { w with
              trace := w.trace ++
                [Event.malloc P.sizeof_wrapper_data,
                 Event.store_func E.malloc func,
                 Event.store_arg E.malloc arg,
                 Event.create thr Code.wrapper E.malloc
                   (some { func := some func, arg := some arg }),
                 Event.free E.malloc]
              heap := Function.update w.heap E.malloc none })
    ∧ (E.status NativeCall.pthread_create = 0 →
        thrd_create P E thr func arg w =
          Outcome.ret thrd_success
            { w with
              trace := w.trace ++
                [Event.malloc P.sizeof_wrapper_data,
                 Event.store_func E.malloc func,
                 Event.store_arg E.malloc arg,
                 Event.create thr Code.wrapper E.malloc
                   (some { func := some func, arg := some arg })]
              heap := Function.update w.heap E.malloc
                (some { func := some func, arg := some arg })
              handle_mem := Function.update w.handle_mem thr (some E.new_handle) }) :=
  ⟨thrd_create_spawn_failed P E thr func arg w hm, thrd_create_spawned P E thr func arg w hm⟩

/-- An instance of `thrd_create_handoff` on concrete inputs. -/
theorem thrd_create_handoff_witness :
    (sample_env 11 100).malloc ≠ NULL
    ∧ (sample_env 11 100).status NativeCall.pthread_create ≠ 0
    ∧ thrd_create linux_x86_64 (sample_env 11 100) 1 5 6 empty_world =
        Outcome.ret thrd_error
          { empty_world with
            trace := empty_world.trace ++
              [Event.malloc linux_x86_64.sizeof_wrapper_data,
               Event.store_func (sample_env 11 100).malloc 5,
               Event.store_arg (sample_env 11 100).malloc 6,
               Event.create 1 Code.wrapper (sample_env 11 100).malloc
                 (some { func := some 5, arg := some 6 }),
               Event.free (sample_env 11 100).malloc]
            heap := Function.update empty_world.heap (sample_env 11 100).malloc none }
    ∧ (sample_env 0 100).malloc ≠ NULL
    ∧ (sample_env 0 100).status NativeCall.pthread_create = 0
    ∧ thrd_create linux_x86_64 (sample_env 0 100) 1 5 6 empty_world =
        Outcome.ret thrd_success
          { empty_world with
            trace := empty_world.trace ++
              [Event.malloc linux_x86_64.sizeof_wrapper_data,
               Event.store_func (sample_env 0 100).malloc 5,
               Event.store_arg (sample_env 0 100).malloc 6,
               Event.create 1 Code.wrapper (sample_env 0 100).malloc
                 (some { func := some 5, arg := some 6 })]
            heap := Function.update empty_world.heap (sample_env 0 100).malloc
              (some { func := some 5, arg := some 6 })
            handle_mem := Function.update empty_world.handle_mem 1
              (some (sample_env 0 100).new_handle) } :=
  ⟨by decide, by decide,
    (thrd_create_handoff linux_x86_64 (sample_env 11 100) 1 5 6 empty_world (by decide)).1
      (by decide),
    by decide, rfl,
    (thrd_create_handoff linux_x86_64 (sample_env 0 100) 1 5 6 empty_world (by decide)).2 rfl⟩

/-! ## The bridging entry point -/

theorem wrapper_run (P : Platform) (E : Env) (d : Ptr) (f : Nat) (a : Ptr) (w : World)
    (hd : d ≠ NULL) (hrec : w.heap d = some { func := some f, arg := some a }) :
    wrapper P E d w =
      Outcome.map (int_to_ptr P)
        (E.start f a
          { w with
            trace := w.trace ++ [Event.load d, Event.free d, Event.invoke f a]
            heap := Function.update w.heap d none }) := by
  simp only [wrapper, bind_apply, pure_apply, load, hrec, free, hd, invoke, emit, if_false,
    List.append_assoc, List.singleton_append, List.nil_append, Function.update_same]
  split <;> simp_all [Outcome.map]

/-- C10: given a live record at `d` holding `(f, a)`, `wrapper` behaves as
the start function `f` applied to `a`, run in a world in which the record has
already been copied out once and freed once and is no longer live; `wrapper`
itself does nothing to the record afterwards, and when `f` never returns the
release has still happened. -/
theorem wrapper_frees_before_call (P : Platform) (E : Env) (d : Ptr) (f : Nat) (a : Ptr)
    (w : World) (hd : d ≠ NULL) (hrec : w.heap d = some { func := some f, arg := some a }) :
    wrapper P E d w =
      Outcome.map (int_to_ptr P)
        (E.start f a
          { w with
            trace := w.trace ++ [Event.load d, Event.free d, Event.invoke f a]
            heap := Function.update w.heap d none }) :=
  wrapper_run P E d f a w hd hrec

/-- An instance of `wrapper_frees_before_call` on concrete inputs. -/
theorem wrapper_frees_before_call_witness :
    (100 : Ptr) ≠ NULL
    ∧ (world_with_record 100 5 6).heap 100 = some { func := some 5, arg := some 6 }
    ∧ wrapper linux_x86_64 (sample_env 0 0) 100 (world_with_record 100 5 6) =
        Outcome.map (int_to_ptr linux_x86_64)
          ((sample_env 0 0).start 5 6
            { world_with_record 100 5 6 with
              trace := (world_with_record 100 5 6).trace
                ++ [Event.load 100, Event.free 100, Event.invoke 5 6]
              heap := Function.update (world_with_record 100 5 6).heap 100 none }) :=
  ⟨by decide, rfl,
    wrapper_frees_before_call linux_x86_64 (sample_env 0 0) 100 5 6 (world_with_record 100 5 6)
      (by decide) rfl⟩

/-! ## Exit codes -/

theorem two_pow_pred (bits : Nat) (h : 0 < bits) :
    (2 : Int) ^ bits = 2 * 2 ^ (bits - 1) := by
  obtain ⟨k, rfl⟩ : ∃ k, bits = k + 1 := ⟨bits - 1, by omega⟩
  simp [pow_succ, mul_comm]

theorem to_signed_of_range (bits : Nat) (x : Int) (h : 0 < bits)
    (lo : -(2 : Int) ^ (bits - 1) ≤ x) (hi : x < (2 : Int) ^ (bits - 1)) :
    to_signed bits x = x := by
  unfold to_signed
  rw [two_pow_pred bits h]
  rw [Int.emod_eq_of_lt (by omega) (by omega)]
  omega

theorem to_signed_emod (bits : Nat) (x : Int) :
    to_signed bits (x % 2 ^ bits) = to_signed bits x := by
  unfold to_signed
  rw [Int.emod_add_emod]

theorem half_le_half (a b : Nat) (h : a ≤ b) : (2 : Int) ^ (a - 1) ≤ 2 ^ (b - 1) := by
  exact_mod_cast Nat.pow_le_pow_right (by decide) (by omega : a - 1 ≤ b - 1)

theorem ptr_to_int_int_to_ptr (P : Platform) (r : Int)
    (hb : 0 < P.int_bits) (hw : P.int_bits ≤ P.ptr_bits)
    (lo : -(2 : Int) ^ (P.int_bits - 1) ≤ r) (hi : r < (2 : Int) ^ (P.int_bits - 1)) :
    ptr_to_int P (int_to_ptr P r) = r := by
  have hh := half_le_half P.int_bits P.ptr_bits hw
  have hp : 0 < P.ptr_bits := by omega
  have h1 : to_signed P.ptr_bits r = r := to_signed_of_range _ _ hp (by omega) (by omega)
  unfold ptr_to_int int_to_ptr
  rw [h1, Int.toNat_of_nonneg (Int.emod_nonneg _ (by positivity)), to_signed_emod, h1]
  exact to_signed_of_range _ _ hb lo hi

theorem thrd_join_joined (P : Platform) (E : Env) (thr : Nat) (res : Ptr) (w : World)
    (hj : E.status NativeCall.pthread_join = 0) (hres : res ≠ NULL) :
    thrd_join P E thr res w =
      Outcome.ret thrd_success
        { w with
          trace := w.trace ++ [Event.native NativeCall.pthread_join]
          int_mem := Function.update w.int_mem res (some (ptr_to_int P E.join_value)) } := by
  simp [thrd_join, bind_apply, pure_apply, pthread_join, emit, hj, hres, store_int]

/-- C6: on a platform whose `intptr_t` is at least as wide as `int`, and for
every `r` in the range of `int`: decoding the encoded exit code gives `r`
back; `thrd_exit` hands `pthread_exit` the encoding of `r`; `wrapper` returns
the encoding of `r` when the start function returns `r`; and a successful
`thrd_join` that receives that encoding and has a non-null result slot stores
exactly `r` in it and returns `thrd_success`. -/
theorem exit_code_round_trip (P : Platform) (E : Env) (r : Int)
    (d : Ptr) (f : Nat) (a : Ptr) (wt wt1 : World) (thr : Nat) (res : Ptr) (wj : World)
    (hb : 0 < P.int_bits) (hw : P.int_bits ≤ P.ptr_bits)
    (lo : -(2 : Int) ^ (P.int_bits - 1) ≤ r) (hi : r < (2 : Int) ^ (P.int_bits - 1))
    (hd : d ≠ NULL) (hrec : wt.heap d = some { func := some f, arg := some a })
    (hstart : E.start f a
        { wt with
          trace := wt.trace ++ [Event.load d, Event.free d, Event.invoke f a]
          heap := Function.update wt.heap d none } = Outcome.ret r wt1)
    (hj : E.status NativeCall.pthread_join = 0) (hv : E.join_value = int_to_ptr P r)
    (hres : res ≠ NULL) :
    ptr_to_int P (int_to_ptr P r) = r
    ∧ (thrd_exit P r : M Int) wt =
        Outcome.noreturn
          { wt with
            trace := wt.trace ++ [Event.exit (int_to_ptr P r)]
            exit_value := some (int_to_ptr P r) }
    ∧ wrapper P E d wt = Outcome.ret (int_to_ptr P r) wt1
    ∧ thrd_join P E thr res wj =
        Outcome.ret thrd_success
          { wj with
            trace := wj.trace ++ [Event.native NativeCall.pthread_join]
            int_mem := Function.update wj.int_mem res (some r) } := by
  have hrt := ptr_to_int_int_to_ptr P r hb hw lo hi
  refine ⟨hrt, rfl, ?_, ?_⟩
  · rw [wrapper_run P E d f a wt hd hrec, hstart]
    rfl
  · rw [thrd_join_joined P E thr res wj hj hres, hv, hrt]

/-- An instance of `exit_code_round_trip` on concrete inputs. -/
theorem exit_code_round_trip_witness :
    0 < linux_x86_64.int_bits ∧ linux_x86_64.int_bits ≤ linux_x86_64.ptr_bits
    ∧ -(2 : Int) ^ (linux_x86_64.int_bits - 1) ≤ -2147483648
    ∧ (-2147483648 : Int) < (2 : Int) ^ (linux_x86_64.int_bits - 1)
    ∧ ptr_to_int linux_x86_64 (int_to_ptr linux_x86_64 (-2147483648)) = -2147483648
    ∧ (thrd_exit linux_x86_64 (-2147483648) : M Int) (world_with_record 100 2147483640 8) =
        Outcome.noreturn
          { world_with_record 100 2147483640 8 with
            trace := (world_with_record 100 2147483640 8).trace
              ++ [Event.exit (int_to_ptr linux_x86_64 (-2147483648))]
            exit_value := some (int_to_ptr linux_x86_64 (-2147483648)) }
    ∧ wrapper linux_x86_64 (join_env (int_to_ptr linux_x86_64 (-2147483648))) 100
          (world_with_record 100 2147483640 8) =
        Outcome.ret (int_to_ptr linux_x86_64 (-2147483648))
          { world_with_record 100 2147483640 8 with
            trace := (world_with_record 100 2147483640 8).trace
              ++ [Event.load 100, Event.free 100, Event.invoke 2147483640 8]
            heap := Function.update (world_with_record 100 2147483640 8).heap 100 none }
    ∧ thrd_join linux_x86_64 (join_env (int_to_ptr linux_x86_64 (-2147483648))) 7 1
          empty_world =
        Outcome.ret thrd_success
          { empty_world with
            trace := empty_world.trace ++ [Event.native NativeCall.pthread_join]
            int_mem := Function.update empty_world.int_mem 1 (some (-2147483648)) } :=
  ⟨by decide, by decide, by decide, by decide,
    exit_code_round_trip linux_x86_64 (join_env (int_to_ptr linux_x86_64 (-2147483648)))
      (-2147483648) 100 2147483640 8 (world_with_record 100 2147483640 8) _ 7 1 empty_world
      (by decide) (by decide) (by decide) (by decide) (by decide) rfl rfl rfl rfl (by decide)⟩

end C11Threads
